import Mathlib

/-!
Shallow embedding of the transactional layer of an ordered key-value store
(the files `transaction_db.rs`, `optimistic_transaction_db.rs` and
`transaction.rs`), together with theorems settling the frozen claims about
its specification.

Native engine calls (the C FFI surface) are modelled as oracle parameters:
a pointer is an `Option Nat` with `none` standing for the null pointer, and
byte strings are `List Nat`.  Behaviour that lives inside the native engine
or in crate files outside the analysed sources is modelled from the spec and
marked as such in the doc comment of the corresponding definition.
-/

namespace RocksDb

/-- The crate's `Error` type: a wrapper around a message string. -/
structure Error where
  message : String
deriving DecidableEq

/-- Result of running a Rust call that may return normally, return a typed
error, or panic (an `unimplemented!` panic carries a message prefixed by
"not implemented: "). -/
inductive Outcome (α : Type) where
  | ok : α → Outcome α
  | err : Error → Outcome α
  | panicked : String → Outcome α
deriving DecidableEq

/-- `true` exactly on the `err` constructor. -/
def Outcome.isErr {α : Type} : Outcome α → Bool
  | .err _ => true
  | _ => false

/-- `true` exactly on the `panicked` constructor. -/
def Outcome.isPanicked {α : Type} : Outcome α → Bool
  | .panicked _ => true
  | _ => false

/-- Name-to-handle map operations used by the column-family registry
(`BTreeMap` in the source: `insert` replaces an existing binding). -/
def mapInsert (m : List (String × Nat)) (k : String) (v : Nat) :
    List (String × Nat) :=
  m.filter (fun p => p.1 ≠ k) ++ [(k, v)]

/-- Lookup in the registry map (`BTreeMap::get`). -/
def mapGet (m : List (String × Nat)) (k : String) : Option Nat :=
  (m.find? (fun p => p.1 = k)).map (fun p => p.2)

/-- `TransactionDBWithThreadMode<SingleThreaded>`: the registry is a plain
name-to-handle map owned by the database value.  The native database pointer
and path are irrelevant to the registry claims and omitted. -/
structure TransactionDBSingle where
  cfs : List (String × Nat)
deriving DecidableEq

/-- `TransactionDBWithThreadMode<MultiThreaded>`: the same map held behind
`RwLock` inside the database; the lock is a concurrency artifact and the map
content is what is modelled. -/
structure TransactionDBMulti where
  cfs : List (String × Nat)
deriving DecidableEq

/-- The message carried by the `unimplemented!` panic in both `drop_cf`
bodies (`transaction_db.rs` lines 648-650 and 671-673). -/
def dropCfPanicMsg : String :=
  "not implemented: drop_column_family not exposed on C API for transactiondb"

/-- `TransactionDBWithThreadMode::<SingleThreaded>::drop_cf`
(`transaction_db.rs` lines 648-650): the body is
`unimplemented!("drop_column_family not exposed on C API for transactiondb")`,
an unconditional panic; the registry is left untouched. -/
def TransactionDBSingle.drop_cf (db : TransactionDBSingle) (_name : String) :
    Outcome Unit × TransactionDBSingle :=
  (Outcome.panicked dropCfPanicMsg, db)

/-- `TransactionDBWithThreadMode::<MultiThreaded>::drop_cf`
(`transaction_db.rs` lines 671-673): the same unconditional
`unimplemented!` panic. -/
def TransactionDBMulti.drop_cf (db : TransactionDBMulti) (_name : String) :
    Outcome Unit × TransactionDBMulti :=
  (Outcome.panicked dropCfPanicMsg, db)

/-- Claim C1 (counterexample): at the concrete single-threaded database whose
registry holds only the default family, `drop_cf "cf1"` panics and does not
return a typed error result, contradicting the claim that drop-column-family
returns an explicit Unsupported error and never panics. -/
theorem drop_cf_panics_counterexample :
    (TransactionDBSingle.drop_cf ⟨[("default", 0)]⟩ "cf1").1.isPanicked = true
    ∧ (TransactionDBSingle.drop_cf ⟨[("default", 0)]⟩ "cf1").1.isErr = false := by
  constructor <;> rfl

/-- Claim C1 (amended): for both thread-mode variants of the transactional
engine and every family name, whether or not the family exists, `drop_cf`
panics with the fixed "not implemented" message and leaves the registry
unchanged; it never silently succeeds and never returns a typed error. -/
theorem drop_cf_always_panics (dbS : TransactionDBSingle)
    (dbM : TransactionDBMulti) (name : String) :
    TransactionDBSingle.drop_cf dbS name = (Outcome.panicked dropCfPanicMsg, dbS)
    ∧ TransactionDBMulti.drop_cf dbM name = (Outcome.panicked dropCfPanicMsg, dbM) := by
  constructor <;> rfl

/-- `ReadOptions`: only the observable relevant to the analysed code is kept,
namely whether the underlying allocation produced a null pointer (`get_opt`
checks `readopts.inner.is_null()`).  `ReadOptions::default()` allocates a
fresh options object; allocation failure is modelled by `innerNull`. -/
structure ReadOptions where
  innerNull : Bool
deriving DecidableEq

/-- `ReadOptions::default()` in the usual (successful-allocation) case. -/
def ReadOptions.default : ReadOptions := ⟨false⟩

/-- What a native point read returns through the FFI: either the call set an
error (`ffi_try` propagates it), or it returns a value pointer, `none`
standing for the null pointer that signals "key not found". -/
inductive GetReply where
  | ffiError : Error → GetReply
  | value : Option (List Nat) → GetReply
deriving DecidableEq

/-- `Transaction::get_opt` (`transaction.rs` lines 137-169): rejects a null
`ReadOptions`, propagates an FFI error, maps a null value pointer to
`Ok(None)` and a non-null pointer of length `val_len` to `Ok(Some(bytes))`
(`raw_data` on a non-null pointer).  The native `rocksdb_transaction_get`
call is the oracle `eng`, a function of the key and the read options. -/
def Transaction.get_opt (eng : List Nat → ReadOptions → GetReply)
    (key : List Nat) (readopts : ReadOptions) :
    Except Error (Option (List Nat)) :=
  if readopts.innerNull then
    Except.error ⟨"Unable to create RocksDB read options."⟩
  else
    match eng key readopts with
    | GetReply.ffiError e => Except.error e
    | GetReply.value none => Except.ok none
    | GetReply.value (some v) => Except.ok (some v)

/-- `Transaction::get` (`transaction.rs` lines 171-173): delegates to
`get_opt` with default `ReadOptions`. -/
def Transaction.get (eng : List Nat → ReadOptions → GetReply)
    (key : List Nat) : Except Error (Option (List Nat)) :=
  Transaction.get_opt eng key ReadOptions.default

/-- `Transaction::get_for_update_opt` (`transaction.rs` lines 66-94): calls
`rocksdb_transaction_get_for_update` with the given read options and the
`exclusive` flag (the oracle `eng`), then performs the same null-pointer
translation as `get_opt`; there is no read-options null check here. -/
def Transaction.get_for_update_opt
    (eng : List Nat → ReadOptions → Bool → GetReply)
    (key : List Nat) (readopts : ReadOptions) (exclusive : Bool) :
    Except Error (Option (List Nat)) :=
  match eng key readopts exclusive with
  | GetReply.ffiError e => Except.error e
  | GetReply.value none => Except.ok none
  | GetReply.value (some v) => Except.ok (some v)

/-- `Transaction::get_for_update` (`transaction.rs` lines 60-63): builds a
default `ReadOptions` and delegates with `exclusive = true`. -/
def Transaction.get_for_update
    (eng : List Nat → ReadOptions → Bool → GetReply)
    (key : List Nat) : Except Error (Option (List Nat)) :=
  Transaction.get_for_update_opt eng key ReadOptions.default true

/-- `Transaction::get_for_update_cf_opt` (`transaction.rs` lines 105-135):
the column-family variant; the oracle additionally takes the family
handle. -/
def Transaction.get_for_update_cf_opt
    (eng : Nat → List Nat → ReadOptions → Bool → GetReply)
    (cf : Nat) (key : List Nat) (readopts : ReadOptions) (exclusive : Bool) :
    Except Error (Option (List Nat)) :=
  match eng cf key readopts exclusive with
  | GetReply.ffiError e => Except.error e
  | GetReply.value none => Except.ok none
  | GetReply.value (some v) => Except.ok (some v)

/-- `Transaction::get_for_update_cf` (`transaction.rs` lines 96-103): builds
a default `ReadOptions` and delegates with `exclusive = true`. -/
def Transaction.get_for_update_cf
    (eng : Nat → List Nat → ReadOptions → Bool → GetReply)
    (cf : Nat) (key : List Nat) : Except Error (Option (List Nat)) :=
  Transaction.get_for_update_cf_opt eng cf key ReadOptions.default true

/-- `TransactionDBWithThreadMode::get_opt` (`transaction_db.rs` lines
337-369): the facade's direct read; structurally the same null-options
check, FFI-error propagation and null-pointer translation as the
transaction's `get_opt`, against `rocksdb_transactiondb_get`. -/
def TransactionDB.get_opt (eng : List Nat → ReadOptions → GetReply)
    (key : List Nat) (readopts : ReadOptions) :
    Except Error (Option (List Nat)) :=
  if readopts.innerNull then
    Except.error ⟨"Unable to create RocksDB read options."⟩
  else
    match eng key readopts with
    | GetReply.ffiError e => Except.error e
    | GetReply.value none => Except.ok none
    | GetReply.value (some v) => Except.ok (some v)

/-- `TransactionDBWithThreadMode::get` (`transaction_db.rs` lines 371-373):
delegates to `get_opt` with default `ReadOptions`. -/
def TransactionDB.get (eng : List Nat → ReadOptions → GetReply)
    (key : List Nat) : Except Error (Option (List Nat)) :=
  TransactionDB.get_opt eng key ReadOptions.default

/-- The null-pointer translation shared by every read path: `Ok(None)` for a
null value pointer, `Ok(Some v)` otherwise, error propagated. -/
def replyValue (r : GetReply) : Except Error (Option (List Nat)) :=
  match r with
  | GetReply.ffiError e => Except.error e
  | GetReply.value none => Except.ok none
  | GetReply.value (some v) => Except.ok (some v)

/-- Claim C4: with valid (non-null) read options, a transactional read and
the facade's direct read return `Ok(None)` exactly when the engine reports
the key as not found (a null value pointer), return `Ok(Some v)` whenever
the engine returns value `v`, and in particular an empty stored value comes
back as `Ok(Some [])`, which is distinct from the absent case; the
convenience `get` forms are the `get_opt` forms at default options. -/
theorem get_not_found_iff_null (eng : List Nat → ReadOptions → GetReply)
    (engDb : List Nat → ReadOptions → GetReply)
    (key : List Nat) (readopts : ReadOptions)
    (hro : readopts.innerNull = false) :
    (Transaction.get_opt eng key readopts = Except.ok none
      ↔ eng key readopts = GetReply.value none)
    ∧ (∀ v, eng key readopts = GetReply.value (some v)
        → Transaction.get_opt eng key readopts = Except.ok (some v))
    ∧ (TransactionDB.get_opt engDb key readopts = Except.ok none
      ↔ engDb key readopts = GetReply.value none)
    ∧ (∀ v, engDb key readopts = GetReply.value (some v)
        → TransactionDB.get_opt engDb key readopts = Except.ok (some v))
    ∧ (Except.ok (some ([] : List Nat)) ≠
        (Except.ok none : Except Error (Option (List Nat))))
    ∧ Transaction.get eng key = Transaction.get_opt eng key ReadOptions.default
    ∧ TransactionDB.get engDb key = TransactionDB.get_opt engDb key ReadOptions.default := by
  refine ⟨?_, ?_, ?_, ?_, by simp, rfl, rfl⟩
  · unfold Transaction.get_opt
    rw [hro]
    simp only [Bool.false_eq_true, if_false]
    cases h : eng key readopts with
    | ffiError e => simp [h]
    | value v => cases v <;> simp
  · intro v hv
    unfold Transaction.get_opt
    rw [hro, hv]
    simp
  · unfold TransactionDB.get_opt
    rw [hro]
    simp only [Bool.false_eq_true, if_false]
    cases h : engDb key readopts with
    | ffiError e => simp [h]
    | value v => cases v <;> simp
  · intro v hv
    unfold TransactionDB.get_opt
    rw [hro, hv]
    simp

/-- Claim C4 (witness): the theorem applied at a concrete engine that stores
the empty value under key `[1]` and nothing under key `[2]`, with default
(non-null) read options. -/
theorem get_not_found_iff_null_witness :
    Transaction.get_opt
        (fun k _ => if k = [1] then GetReply.value (some []) else GetReply.value none)
        [2] ReadOptions.default = Except.ok none
      ↔ (fun (k : List Nat) (_ : ReadOptions) =>
          if k = [1] then GetReply.value (some []) else GetReply.value none)
          [2] ReadOptions.default = GetReply.value none := by
  exact (get_not_found_iff_null
    (fun k _ => if k = [1] then GetReply.value (some []) else GetReply.value none)
    (fun k _ => if k = [1] then GetReply.value (some []) else GetReply.value none)
    [2] ReadOptions.default rfl).1

/-- Claim C7: the convenience forms of get-for-update are exactly the
`_opt` forms at default `ReadOptions` with `exclusive = true`, and their
result is the engine's reply at `exclusive = true` — the convenience forms
always request the exclusive lock / write-conflict watch. -/
theorem get_for_update_defaults_exclusive
    (eng : List Nat → ReadOptions → Bool → GetReply)
    (engCf : Nat → List Nat → ReadOptions → Bool → GetReply)
    (cf : Nat) (key : List Nat) :
    Transaction.get_for_update eng key
      = Transaction.get_for_update_opt eng key ReadOptions.default true
    ∧ Transaction.get_for_update_cf engCf cf key
      = Transaction.get_for_update_cf_opt engCf cf key ReadOptions.default true
    ∧ Transaction.get_for_update eng key
      = replyValue (eng key ReadOptions.default true)
    ∧ Transaction.get_for_update_cf engCf cf key
      = replyValue (engCf cf key ReadOptions.default true) := by
  refine ⟨rfl, rfl, ?_, ?_⟩
  · unfold Transaction.get_for_update Transaction.get_for_update_opt replyValue
    rfl
  · unfold Transaction.get_for_update_cf Transaction.get_for_update_cf_opt replyValue
    rfl

/-- `WriteOptions`: only its identity as a default-constructed options value
matters to the analysed code. -/
structure WriteOptions where
  sync : Bool
deriving DecidableEq

/-- `WriteOptions::default()`. -/
def WriteOptions.default : WriteOptions := ⟨false⟩

/-- `OptimisticTransactionOptions` (`optimistic_transaction_db.rs` lines
38-61): the one observable knob is the snapshot flag.  Modelled from the
spec and the source doc comment on `set_snapshot` ("Default: false"): the
native `rocksdb_optimistictransaction_options_create` starts with
`set_snapshot = false`. -/
structure OptimisticTransactionOptions where
  setSnapshot : Bool
deriving DecidableEq

/-- `OptimisticTransactionOptions::new` (lines 44-49): fresh options with
the native default `set_snapshot = false`. -/
def OptimisticTransactionOptions.new : OptimisticTransactionOptions := ⟨false⟩

/-- `impl Default for OptimisticTransactionOptions` (lines 71-75). -/
def OptimisticTransactionOptions.default : OptimisticTransactionOptions :=
  OptimisticTransactionOptions.new

/-- `OptimisticTransactionOptions::set_snapshot` (lines 53-60). -/
def OptimisticTransactionOptions.set_snapshot
    (_o : OptimisticTransactionOptions) (b : Bool) :
    OptimisticTransactionOptions := ⟨b⟩

/-- A begun transaction's observable creation state: the snapshot pinned at
creation time, if any (`none` = no snapshot pinned). -/
structure TxnHandle where
  snapshot : Option Nat
deriving DecidableEq

/-- Modelled from the spec (section 4.3): `rocksdb_optimistictransaction_begin`
pins a snapshot of the store at creation time iff `txn_opts.set_snapshot` is
true; `currentSeq` is the store's sequence number at begin.  This is the body
of `OptimisticTransactionDBWithThreadMode::transaction_opt`
(`optimistic_transaction_db.rs` lines 255-269). -/
def OptimisticTransactionDB.transaction_opt (currentSeq : Nat)
    (_write_opts : WriteOptions) (txn_opts : OptimisticTransactionOptions) :
    TxnHandle :=
  { snapshot := if txn_opts.setSnapshot then some currentSeq else none }

/-- `OptimisticTransactionDBWithThreadMode::transaction`
(`optimistic_transaction_db.rs` lines 271-275): builds default
`WriteOptions` and default `OptimisticTransactionOptions` and delegates to
`transaction_opt`. -/
def OptimisticTransactionDB.transaction (currentSeq : Nat) : TxnHandle :=
  OptimisticTransactionDB.transaction_opt currentSeq
    WriteOptions.default OptimisticTransactionOptions.default

/-- Claim C10: the no-argument `transaction()` constructor equals
`transaction_opt` at default `WriteOptions` and default
`OptimisticTransactionOptions`; the default snapshot flag is false, so a
transaction begun via `transaction()` pins no snapshot at creation. -/
theorem transaction_default_no_snapshot (currentSeq : Nat) :
    OptimisticTransactionDB.transaction currentSeq
      = OptimisticTransactionDB.transaction_opt currentSeq
          WriteOptions.default OptimisticTransactionOptions.default
    ∧ OptimisticTransactionOptions.default.setSnapshot = false
    ∧ (OptimisticTransactionDB.transaction currentSeq).snapshot = none := by
  exact ⟨rfl, rfl, rfl⟩

/-- The crate constant `DEFAULT_COLUMN_FAMILY_NAME`. -/
def DEFAULT_COLUMN_FAMILY_NAME : String := "default"

/-- `Options`: database / column-family options, opaque to the analysed
code except for being default-constructed or caller-supplied; `id = 0` is
the value produced by `Options::default()`. -/
structure Options where
  id : Nat
deriving DecidableEq

/-- `Options::default()`. -/
def Options.default : Options := ⟨0⟩

/-- `ColumnFamilyDescriptor`: a requested family name with its options. -/
structure ColumnFamilyDescriptor where
  name : String
  options : Options
deriving DecidableEq

/-- Lines 207-214 of `transaction_db.rs` (and identically lines 158-165 of
`optimistic_transaction_db.rs`): if no requested descriptor is named
"default", a descriptor for the default family with default options is
pushed at the end of the list. -/
def withDefaultCf (cfs : List ColumnFamilyDescriptor) :
    List ColumnFamilyDescriptor :=
  if cfs.any (fun cf => cf.name = DEFAULT_COLUMN_FAMILY_NAME) then cfs
  else cfs ++ [⟨DEFAULT_COLUMN_FAMILY_NAME, Options.default⟩]

/-- The environment of one `open_cf_descriptors` call on the transactional
database: whether path-to-CString conversion succeeds, whether
`fs::create_dir_all` succeeds, and the two native open calls as oracles.
A returned pointer is `Option Nat` with `none` for null; `openCfRaw` also
returns the populated family-handle vector. -/
structure OpenEnv where
  toCPathOk : Bool
  createDirOk : Bool
  openRaw : Except Error (Option Nat)
  openCfRaw : List ColumnFamilyDescriptor → Except Error (Option Nat × List (Option Nat))

/-- A successfully opened transactional database: the native pointer and the
populated registry. -/
structure TransactionDBOpen where
  inner : Nat
  cfs : List (String × Nat)
deriving DecidableEq

/-- Error returned when a returned column-family handle is null
(`transaction_db.rs` lines 241-247). -/
def nullCfHandleErr : Error := ⟨"Received null column family handle from DB."⟩

/-- Error returned when the top-level database pointer is null
(`transaction_db.rs` lines 254-256). -/
def openFailedErr : Error := ⟨"Could not initialize database."⟩

/-- The empty-list branch of `open_cf_descriptors` (`transaction_db.rs`
line 205 together with the shared null check at lines 254-256): plain open,
empty registry. -/
def openViaPlain (env : OpenEnv) : Except Error TransactionDBOpen :=
  match env.openRaw with
  | Except.error e => Except.error e
  | Except.ok db =>
    if db = none then Except.error openFailedErr
    else Except.ok ⟨db.getD 0, []⟩

/-- The non-empty branch of `open_cf_descriptors` (`transaction_db.rs` lines
215-252 plus the shared null check at 254-256): native open with the family
list, then the per-handle null check, then the top-level null check, then
the registry is built by inserting `name -> handle` pairs in order. -/
def openViaCfs (env : OpenEnv) (cfs_v : List ColumnFamilyDescriptor) :
    Except Error TransactionDBOpen :=
  match env.openCfRaw cfs_v with
  | Except.error e => Except.error e
  | Except.ok (db, handles) =>
    if handles.any (fun h => h = none) then Except.error nullCfHandleErr
    else if db = none then Except.error openFailedErr
    else
      Except.ok ⟨db.getD 0,
        ((cfs_v.map (fun cf => cf.name)).zip (handles.map (fun h => h.getD 0))).foldl
          (fun m p => mapInsert m p.1 p.2) []⟩

/-- `TransactionDBWithThreadMode::open_cf_descriptors` (`transaction_db.rs`
lines 177-264): path conversion, directory creation, then either the plain
open (empty requested list) or the family open on the list extended with the
default family. -/
def TransactionDB.open_cf_descriptors (env : OpenEnv)
    (cfs : List ColumnFamilyDescriptor) : Except Error TransactionDBOpen :=
  if env.toCPathOk = false then
    Except.error ⟨"Failed to convert path to CString when opening DB."⟩
  else if env.createDirOk = false then
    Except.error ⟨"Failed to create RocksDB directory."⟩
  else
    match cfs with
    | [] => openViaPlain env
    | _ :: _ => openViaCfs env (withDefaultCf cfs)

/-- A successfully opened optimistic-transactional database: the native
pointer, the derived base-database pointer obtained from
`rocksdb_optimistictransactiondb_get_base_db`, and the registry handed to
the base view. -/
structure OptimisticDBOpen where
  inner : Nat
  baseInner : Nat
  cfs : List (String × Nat)
deriving DecidableEq

/-- The environment of one optimistic `open_cf_descriptors` call; same shape
as `OpenEnv` plus the native `get_base_db` call. -/
structure OptOpenEnv where
  toCPathOk : Bool
  createDirOk : Bool
  openRaw : Except Error (Option Nat)
  openCfRaw : List ColumnFamilyDescriptor → Except Error (Option Nat × List (Option Nat))
  getBaseDb : Nat → Nat

/-- The empty-list branch of the optimistic `open_cf_descriptors`
(`optimistic_transaction_db.rs` line 156 with the shared checks at lines
204-218): plain open, then the base-db derivation. -/
def optOpenViaPlain (env : OptOpenEnv) : Except Error OptimisticDBOpen :=
  match env.openRaw with
  | Except.error e => Except.error e
  | Except.ok db =>
    if db = none then Except.error openFailedErr
    else Except.ok ⟨db.getD 0, env.getBaseDb (db.getD 0), []⟩

/-- The non-empty branch of the optimistic `open_cf_descriptors`
(`optimistic_transaction_db.rs` lines 166-202 with the shared checks at
204-218): family open, per-handle null check, top-level null check, base-db
derivation, registry built in order. -/
def optOpenViaCfs (env : OptOpenEnv) (cfs_v : List ColumnFamilyDescriptor) :
    Except Error OptimisticDBOpen :=
  match env.openCfRaw cfs_v with
  | Except.error e => Except.error e
  | Except.ok (db, handles) =>
    if handles.any (fun h => h = none) then Except.error nullCfHandleErr
    else if db = none then Except.error openFailedErr
    else
      Except.ok ⟨db.getD 0, env.getBaseDb (db.getD 0),
        ((cfs_v.map (fun cf => cf.name)).zip (handles.map (fun h => h.getD 0))).foldl
          (fun m p => mapInsert m p.1 p.2) []⟩

/-- `OptimisticTransactionDBWithThreadMode::open_cf_descriptors`
(`optimistic_transaction_db.rs` lines 129-219). -/
def OptimisticTransactionDB.open_cf_descriptors (env : OptOpenEnv)
    (cfs : List ColumnFamilyDescriptor) : Except Error OptimisticDBOpen :=
  if env.toCPathOk = false then
    Except.error ⟨"Failed to convert path to CString when opening DB."⟩
  else if env.createDirOk = false then
    Except.error ⟨"Failed to create RocksDB directory."⟩
  else
    match cfs with
    | [] => optOpenViaPlain env
    | _ :: _ => optOpenViaCfs env (withDefaultCf cfs)

/-- The appended-or-present default family always appears in the list handed
to the native open. -/
theorem withDefaultCf_has_default (cfs : List ColumnFamilyDescriptor) :
    (withDefaultCf cfs).any
      (fun cf => cf.name = DEFAULT_COLUMN_FAMILY_NAME) = true := by
  unfold withDefaultCf
  by_cases h : cfs.any (fun cf => cf.name = DEFAULT_COLUMN_FAMILY_NAME) = true
  · simp [h]
  · simp only [h, if_false, List.any_append, List.any_cons, List.any_nil]
    simp

/-- Claim C3: for both the transactional and the optimistic-transactional
open (under successful path conversion and directory creation): a non-empty
requested family list with no descriptor named "default" gets the default
descriptor (with default options) appended before the native open; a
non-empty list is always opened through the family path on a list containing
the default family; an empty list is opened through the plain open path. -/
theorem open_always_has_default_cf (envT : OpenEnv) (envO : OptOpenEnv)
    (cfs : List ColumnFamilyDescriptor)
    (hpT : envT.toCPathOk = true) (hdT : envT.createDirOk = true)
    (hpO : envO.toCPathOk = true) (hdO : envO.createDirOk = true) :
    (cfs.any (fun cf => cf.name = DEFAULT_COLUMN_FAMILY_NAME) = false →
        withDefaultCf cfs
          = cfs ++ [⟨DEFAULT_COLUMN_FAMILY_NAME, Options.default⟩])
    ∧ (cfs ≠ [] →
        TransactionDB.open_cf_descriptors envT cfs
            = openViaCfs envT (withDefaultCf cfs)
        ∧ OptimisticTransactionDB.open_cf_descriptors envO cfs
            = optOpenViaCfs envO (withDefaultCf cfs)
        ∧ (withDefaultCf cfs).any
            (fun cf => cf.name = DEFAULT_COLUMN_FAMILY_NAME) = true)
    ∧ (cfs = [] →
        TransactionDB.open_cf_descriptors envT cfs = openViaPlain envT
        ∧ OptimisticTransactionDB.open_cf_descriptors envO cfs
            = optOpenViaPlain envO) := by
  refine ⟨?_, ?_, ?_⟩
  · intro h
    unfold withDefaultCf
    simp [h]
  · intro hne
    obtain ⟨c, t, rfl⟩ := List.exists_cons_of_ne_nil hne
    refine ⟨?_, ?_, withDefaultCf_has_default _⟩
    · unfold TransactionDB.open_cf_descriptors
      rw [hpT, hdT]
      simp
    · unfold OptimisticTransactionDB.open_cf_descriptors
      rw [hpO, hdO]
      simp
  · intro h
    subst h
    constructor
    · unfold TransactionDB.open_cf_descriptors
      rw [hpT, hdT]
      simp
    · unfold OptimisticTransactionDB.open_cf_descriptors
      rw [hpO, hdO]
      simp

/-- A concrete well-behaved open environment for the transactional open. -/
def envTOk : OpenEnv :=
  { toCPathOk := true
    createDirOk := true
    openRaw := Except.ok (some 1)
    openCfRaw := fun cfs_v =>
      Except.ok (some 1, cfs_v.map (fun _ => some 2)) }

/-- A concrete well-behaved open environment for the optimistic open. -/
def envOOk : OptOpenEnv :=
  { toCPathOk := true
    createDirOk := true
    openRaw := Except.ok (some 1)
    openCfRaw := fun cfs_v =>
      Except.ok (some 1, cfs_v.map (fun _ => some 2))
    getBaseDb := fun n => n + 1 }

/-- Claim C3 (witness): the theorem applied to the concrete environments at
the one-element family list `["cf1"]`, which omits the default family. -/
theorem open_always_has_default_cf_witness :
    withDefaultCf [⟨"cf1", Options.default⟩]
        = [⟨"cf1", Options.default⟩]
            ++ [⟨DEFAULT_COLUMN_FAMILY_NAME, Options.default⟩]
    ∧ TransactionDB.open_cf_descriptors envTOk [⟨"cf1", Options.default⟩]
        = openViaCfs envTOk (withDefaultCf [⟨"cf1", Options.default⟩]) := by
  have h := open_always_has_default_cf envTOk envOOk
    [⟨"cf1", Options.default⟩] rfl rfl rfl rfl
  exact ⟨h.1 (by decide), (h.2.1 (by simp)).1⟩

/-- Claim C5 (counterexample): a concrete environment whose native family
open reports a null top-level pointer together with null family handles. -/
def envBothNull : OpenEnv :=
  { toCPathOk := true
    createDirOk := true
    openRaw := Except.ok (some 1)
    openCfRaw := fun _ => Except.ok (none, [none, none]) }

/-- Claim C5 (counterexample): with the native open returning a null
top-level pointer and null family handles, open returns the
null-family-handle error, not the distinct could-not-initialize error the
claim requires whenever the top-level handle is null. -/
theorem open_null_db_counterexample :
    envBothNull.openCfRaw (withDefaultCf [⟨"cf1", Options.default⟩])
        = Except.ok (none, [none, none])
    ∧ TransactionDB.open_cf_descriptors envBothNull [⟨"cf1", Options.default⟩]
        = Except.error nullCfHandleErr
    ∧ nullCfHandleErr ≠ openFailedErr := by
  refine ⟨rfl, rfl, ?_⟩
  intro h
  exact absurd (congrArg Error.message h) (by decide)

/-- Claim C5 (amended): for every open with a non-empty family list (with
path conversion and directory creation succeeding, and the native family
open returning without an FFI error): if any returned family handle is null,
open returns the partially-failed-open error — this check runs first, so it
wins even when the top-level pointer is also null; if all family handles are
non-null and the top-level pointer is null, open returns the distinct
could-not-initialize error; open constructs a database exactly when the
top-level pointer and all family handles are non-null.  Both the
transactional and the optimistic-transactional open behave this way. -/
theorem open_null_handle_errors (envT : OpenEnv) (envO : OptOpenEnv)
    (cfs : List ColumnFamilyDescriptor) (db : Option Nat)
    (handles : List (Option Nat)) (hne : cfs ≠ [])
    (hpT : envT.toCPathOk = true) (hdT : envT.createDirOk = true)
    (hpO : envO.toCPathOk = true) (hdO : envO.createDirOk = true)
    (hT : envT.openCfRaw (withDefaultCf cfs) = Except.ok (db, handles))
    (hO : envO.openCfRaw (withDefaultCf cfs) = Except.ok (db, handles)) :
    (handles.any (fun h => h = none) = true →
        TransactionDB.open_cf_descriptors envT cfs = Except.error nullCfHandleErr
        ∧ OptimisticTransactionDB.open_cf_descriptors envO cfs
            = Except.error nullCfHandleErr)
    ∧ (handles.any (fun h => h = none) = false → db = none →
        TransactionDB.open_cf_descriptors envT cfs = Except.error openFailedErr
        ∧ OptimisticTransactionDB.open_cf_descriptors envO cfs
            = Except.error openFailedErr)
    ∧ ((∃ d, TransactionDB.open_cf_descriptors envT cfs = Except.ok d)
        ↔ db ≠ none ∧ handles.any (fun h => h = none) = false)
    ∧ nullCfHandleErr ≠ openFailedErr := by
  obtain ⟨c, t, rfl⟩ := List.exists_cons_of_ne_nil hne
  have hTeq : TransactionDB.open_cf_descriptors envT (c :: t)
      = openViaCfs envT (withDefaultCf (c :: t)) := by
    unfold TransactionDB.open_cf_descriptors
    rw [hpT, hdT]
    simp
  have hOeq : OptimisticTransactionDB.open_cf_descriptors envO (c :: t)
      = optOpenViaCfs envO (withDefaultCf (c :: t)) := by
    unfold OptimisticTransactionDB.open_cf_descriptors
    rw [hpO, hdO]
    simp
  rw [hTeq, hOeq]
  have hmem : ((handles.any fun h => h = none) = true) ↔ none ∈ handles := by
    simp
  refine ⟨?_, ?_, ?_, ?_⟩
  · intro ha
    have ha' : none ∈ handles := hmem.mp ha
    constructor
    · unfold openViaCfs
      rw [hT]
      simp [ha']
    · unfold optOpenViaCfs
      rw [hO]
      simp [ha']
  · intro ha hdb
    have ha' : none ∉ handles := by
      intro hm
      have hx := hmem.mpr hm
      rw [ha] at hx
      exact absurd hx (by decide)
    constructor
    · unfold openViaCfs
      rw [hT]
      simp [ha', hdb]
    · unfold optOpenViaCfs
      rw [hO]
      simp [ha', hdb]
  · by_cases hmemb : none ∈ handles
    · have ha : (handles.any fun h => h = none) = true := hmem.mpr hmemb
      constructor
      · intro hd
        exfalso
        obtain ⟨d, hd⟩ := hd
        unfold openViaCfs at hd
        rw [hT] at hd
        simp [hmemb] at hd
      · rintro ⟨-, hfalse⟩
        rw [ha] at hfalse
        exact absurd hfalse (by decide)
    · have ha : (handles.any fun h => h = none) = false := by
        cases hcase : (handles.any fun h => h = none) with
        | false => rfl
        | true => exact (hmemb (hmem.mp hcase)).elim
      by_cases hdb : db = none
      · constructor
        · intro hd
          exfalso
          obtain ⟨d, hd⟩ := hd
          unfold openViaCfs at hd
          rw [hT] at hd
          simp [hmemb, hdb] at hd
        · rintro ⟨hne2, -⟩
          exact absurd hdb hne2
      · constructor
        · intro _
          exact ⟨hdb, ha⟩
        · intro _
          unfold openViaCfs
          rw [hT]
          simp [hmemb, hdb]
  · intro h
    exact absurd (congrArg Error.message h) (by decide)

/-- Claim C5 (witness): the amended theorem applied to concrete
environments whose native family open returns a non-null top-level pointer
but a null second family handle. -/
def envNullHandleT : OpenEnv :=
  { toCPathOk := true
    createDirOk := true
    openRaw := Except.ok (some 1)
    openCfRaw := fun _ => Except.ok (some 1, [some 2, none]) }

/-- Concrete optimistic environment with a null second family handle. -/
def envNullHandleO : OptOpenEnv :=
  { toCPathOk := true
    createDirOk := true
    openRaw := Except.ok (some 1)
    openCfRaw := fun _ => Except.ok (some 1, [some 2, none])
    getBaseDb := fun n => n + 1 }

/-- Claim C5 (witness): at the concrete environments, a null family handle
makes both opens fail with the partially-failed-open error. -/
theorem open_null_handle_errors_witness :
    TransactionDB.open_cf_descriptors envNullHandleT [⟨"cf1", Options.default⟩]
        = Except.error nullCfHandleErr
    ∧ OptimisticTransactionDB.open_cf_descriptors envNullHandleO
        [⟨"cf1", Options.default⟩] = Except.error nullCfHandleErr := by
  have h := open_null_handle_errors envNullHandleT envNullHandleO
    [⟨"cf1", Options.default⟩] (some 1) [some 2, none]
    (by decide) rfl rfl rfl rfl rfl rfl
  exact h.1 rfl

/-- The engine-side state relevant to column-family creation: the set of
families that exist in the engine and the next fresh native handle. -/
structure EngineState where
  cfs : List String
  nextHandle : Nat
deriving DecidableEq

/-- Error produced when `CString::new(name)` fails (name contains an
interior NUL byte), `transaction_db.rs` lines 424-430. -/
def cfCStringErr : Error :=
  ⟨"Failed to convert path to CString when creating cf"⟩

/-- The engine-level duplicate-family error. -/
def duplicateCfErr : Error :=
  ⟨"Invalid argument: Column family already exists"⟩

/-- Modelled from the spec (sections 4.1 and 6):
`rocksdb_transactiondb_create_column_family` fails with an InvalidArgument
error when the family already exists in the engine, and otherwise creates it
and returns a fresh non-null handle. -/
def engineCreateCf (e : EngineState) (name : String) :
    Except Error (Nat × EngineState) :=
  if name ∈ e.cfs then Except.error duplicateCfErr
  else Except.ok (e.nextHandle, ⟨e.cfs ++ [name], e.nextHandle + 1⟩)

/-- `CString::new` succeeds exactly when the byte string has no interior
NUL. -/
def nameHasNul (s : String) : Bool :=
  s.toList.any (fun c => c.toNat = 0)

/-- `TransactionDBWithThreadMode::create_inner_cf_handle`
(`transaction_db.rs` lines 419-438): convert the name to a `CString`
(failing on interior NUL), then run the native create call. -/
def create_inner_cf_handle (e : EngineState) (name : String) :
    Except Error (Nat × EngineState) :=
  if nameHasNul name then Except.error cfCStringErr
  else engineCreateCf e name

/-- `TransactionDBWithThreadMode::<SingleThreaded>::create_cf`
(`transaction_db.rs` lines 639-645): run `create_inner_cf_handle`,
propagating its error with the registry untouched; on success insert
`name -> handle` into the registry map. -/
def TransactionDBSingle.create_cf (db : TransactionDBSingle)
    (e : EngineState) (name : String) :
    Except Error Unit × TransactionDBSingle × EngineState :=
  match create_inner_cf_handle e name with
  | Except.error err => (Except.error err, db, e)
  | Except.ok (inner, e') => (Except.ok (), ⟨mapInsert db.cfs name inner⟩, e')

/-- `TransactionDBWithThreadMode::<MultiThreaded>::create_cf`
(`transaction_db.rs` lines 660-667): the same logic with the insertion done
under the registry's write lock. -/
def TransactionDBMulti.create_cf (db : TransactionDBMulti)
    (e : EngineState) (name : String) :
    Except Error Unit × TransactionDBMulti × EngineState :=
  match create_inner_cf_handle e name with
  | Except.error err => (Except.error err, db, e)
  | Except.ok (inner, e') => (Except.ok (), ⟨mapInsert db.cfs name inner⟩, e')

/-- `TransactionDBWithThreadMode::<SingleThreaded>::cf_handle`
(`transaction_db.rs` lines 653-655): registry lookup. -/
def TransactionDBSingle.cf_handle (db : TransactionDBSingle)
    (name : String) : Option Nat :=
  mapGet db.cfs name

/-- `TransactionDBWithThreadMode::<MultiThreaded>::cf_handle`
(`transaction_db.rs` lines 676-684): registry lookup under the read lock,
returning a bound clone of the stored handle. -/
def TransactionDBMulti.cf_handle (db : TransactionDBMulti)
    (name : String) : Option Nat :=
  mapGet db.cfs name

/-- Inserting a binding makes lookup of that name return the new handle. -/
theorem mapGet_mapInsert (m : List (String × Nat)) (k : String) (v : Nat) :
    mapGet (mapInsert m k v) k = some v := by
  unfold mapGet mapInsert
  induction m with
  | nil => simp
  | cons p t ih =>
    by_cases hp : p.1 = k
    · simp [hp]
    · simp [hp]

/-- A name present in the registry map is the first component of some
binding. -/
theorem mapGet_some_mem (m : List (String × Nat)) (k : String)
    (h : mapGet m k ≠ none) : ∃ p ∈ m, p.1 = k := by
  unfold mapGet at h
  cases hf : m.find? (fun p => p.1 = k) with
  | none =>
    rw [hf] at h
    simp at h
  | some p =>
    refine ⟨p, List.mem_of_find?_eq_some hf, ?_⟩
    have hp := List.find?_some hf
    simpa using hp

/-- Claim C6: for both thread-mode variants of the transactional database
(under the registry invariant that every registered name exists in the
engine): if the name is already present in the registry, or the native
create call fails, `create_cf` returns the error unchanged-registry pair —
in the duplicate case the error is the CString error or the engine's
InvalidArgument duplicate error; on success the new handle is inserted
under exactly that name, so a subsequent `cf_handle name` returns it. -/
theorem create_cf_registry (dbS : TransactionDBSingle)
    (dbM : TransactionDBMulti) (e : EngineState) (name : String)
    (hinvS : ∀ p ∈ dbS.cfs, p.1 ∈ e.cfs)
    (hinvM : ∀ p ∈ dbM.cfs, p.1 ∈ e.cfs) :
    (mapGet dbS.cfs name ≠ none →
        (TransactionDBSingle.create_cf dbS e name
            = (Except.error cfCStringErr, dbS, e)
          ∨ TransactionDBSingle.create_cf dbS e name
            = (Except.error duplicateCfErr, dbS, e)))
    ∧ (mapGet dbM.cfs name ≠ none →
        (TransactionDBMulti.create_cf dbM e name
            = (Except.error cfCStringErr, dbM, e)
          ∨ TransactionDBMulti.create_cf dbM e name
            = (Except.error duplicateCfErr, dbM, e)))
    ∧ (∀ err, create_inner_cf_handle e name = Except.error err →
        TransactionDBSingle.create_cf dbS e name = (Except.error err, dbS, e)
        ∧ TransactionDBMulti.create_cf dbM e name = (Except.error err, dbM, e))
    ∧ (∀ h e', create_inner_cf_handle e name = Except.ok (h, e') →
        TransactionDBSingle.create_cf dbS e name
            = (Except.ok (), ⟨mapInsert dbS.cfs name h⟩, e')
        ∧ TransactionDBSingle.cf_handle ⟨mapInsert dbS.cfs name h⟩ name = some h
        ∧ TransactionDBMulti.create_cf dbM e name
            = (Except.ok (), ⟨mapInsert dbM.cfs name h⟩, e')
        ∧ TransactionDBMulti.cf_handle ⟨mapInsert dbM.cfs name h⟩ name = some h) := by
  refine ⟨?_, ?_, ?_, ?_⟩
  · intro hdup
    obtain ⟨p, hp, hpk⟩ := mapGet_some_mem _ _ hdup
    have hmem : name ∈ e.cfs := hpk ▸ hinvS p hp
    by_cases hn : nameHasNul name = true
    · left
      unfold TransactionDBSingle.create_cf create_inner_cf_handle
      rw [hn]
      rfl
    · right
      unfold TransactionDBSingle.create_cf create_inner_cf_handle engineCreateCf
      rw [Bool.not_eq_true] at hn
      rw [hn]
      simp [hmem]
  · intro hdup
    obtain ⟨p, hp, hpk⟩ := mapGet_some_mem _ _ hdup
    have hmem : name ∈ e.cfs := hpk ▸ hinvM p hp
    by_cases hn : nameHasNul name = true
    · left
      unfold TransactionDBMulti.create_cf create_inner_cf_handle
      rw [hn]
      rfl
    · right
      unfold TransactionDBMulti.create_cf create_inner_cf_handle engineCreateCf
      rw [Bool.not_eq_true] at hn
      rw [hn]
      simp [hmem]
  · intro err herr
    constructor
    · unfold TransactionDBSingle.create_cf
      rw [herr]
    · unfold TransactionDBMulti.create_cf
      rw [herr]
  · intro h e' hok
    refine ⟨?_, mapGet_mapInsert _ _ _, ?_, mapGet_mapInsert _ _ _⟩
    · unfold TransactionDBSingle.create_cf
      rw [hok]
    · unfold TransactionDBMulti.create_cf
      rw [hok]

/-- Claim C6 (witness): the theorem applied to a concrete database whose
registry holds family "a" backed by an engine containing "default" and "a";
creating the fresh family "b" succeeds and registers handle 7 under "b". -/
theorem create_cf_registry_witness :
    TransactionDBSingle.create_cf ⟨[("a", 1)]⟩ ⟨["default", "a"], 7⟩ "b"
        = (Except.ok (), ⟨mapInsert [("a", 1)] "b" 7⟩, ⟨["default", "a", "b"], 8⟩)
    ∧ TransactionDBSingle.cf_handle ⟨mapInsert [("a", 1)] "b" 7⟩ "b" = some 7 := by
  have h := create_cf_registry ⟨[("a", 1)]⟩ ⟨[]⟩ ⟨["default", "a"], 7⟩ "b"
    (by simp) (by simp)
  have hc := h.2.2.2 7 ⟨["default", "a", "b"], 8⟩ (by rfl)
  exact ⟨hc.1, hc.2.1⟩

/-- An observable step of a destructor run. -/
inductive DropEvent where
  | releaseCf : String → DropEvent
  | closeBaseView : DropEvent
  | closeOuter : DropEvent
  | closeTxnDb : DropEvent
deriving DecidableEq

/-- Modelled from the spec (section 4.3 and the data model): dropping the
derived base-database view (the `DBWithThreadMode` value, whose destructor
is outside the analysed files) releases every column-family handle it holds
and then releases the derived base handle itself. -/
def baseDbDropTrace (cfs : List String) : List DropEvent :=
  cfs.map DropEvent.releaseCf ++ [DropEvent.closeBaseView]

/-- `impl Drop for OptimisticTransactionDBWithThreadMode`
(`optimistic_transaction_db.rs` lines 278-286): the destructor
unconditionally drops the `ManuallyDrop` base view first, then closes the
outer native optimistic-transaction-db handle. -/
def optimisticDropTrace (cfs : List String) : List DropEvent :=
  baseDbDropTrace cfs ++ [DropEvent.closeOuter]

/-- Modelled from the spec (section 4.1 Destruction): `drop_all_cfs_internal`
(defined outside the analysed files) releases every handle remaining in the
registry. -/
def registryDropTrace (cfs : List String) : List DropEvent :=
  cfs.map DropEvent.releaseCf

/-- `impl Drop for TransactionDBWithThreadMode` (`transaction_db.rs` lines
687-694): release all registry handles, then close the native database
handle. -/
def transactionDbDropTrace (cfs : List String) : List DropEvent :=
  registryDropTrace cfs ++ [DropEvent.closeTxnDb]

/-- In a trace of the form `l ++ [a]` with `a` not occurring in `l`, the
only index carrying `a` is the final one. -/
theorem eq_length_of_get_append {α : Type} (l : List α) (a : α) (hnot : a ∉ l)
    (i : Nat) (hi : i < (l ++ [a]).length)
    (h : (l ++ [a]).get ⟨i, hi⟩ = a) : i = l.length := by
  by_cases hlt : i < l.length
  · exfalso
    apply hnot
    rw [← h]
    have hg : (l ++ [a]).get ⟨i, hi⟩ = l.get ⟨i, hlt⟩ := by
      simp [List.getElem_append_left hlt]
    rw [hg]
    exact List.get_mem l i hlt
  · have hlen : i < l.length + 1 := by
      simpa using hi
    omega

/-- Claim C8: the optimistic database destructor's event trace is the whole
destruction of the derived base view followed by the close of the outer
native handle; the outer close does not occur inside the base-view
destruction, the base-view destruction releases every registered
column-family handle, and every index of the trace carrying the outer close
is the final one — the outer handle is never closed while the derived view
is still alive, on the (single, unconditional) destruction path. -/
theorem optimistic_drop_order (cfs : List String) :
    optimisticDropTrace cfs = baseDbDropTrace cfs ++ [DropEvent.closeOuter]
    ∧ DropEvent.closeOuter ∉ baseDbDropTrace cfs
    ∧ (∀ name ∈ cfs, DropEvent.releaseCf name ∈ baseDbDropTrace cfs)
    ∧ (∀ i, ∀ hi : i < (optimisticDropTrace cfs).length,
        (optimisticDropTrace cfs).get ⟨i, hi⟩ = DropEvent.closeOuter
          → i = (baseDbDropTrace cfs).length) := by
  have hnot : DropEvent.closeOuter ∉ baseDbDropTrace cfs := by
    unfold baseDbDropTrace
    simp
  refine ⟨rfl, hnot, ?_, ?_⟩
  · intro name hn
    unfold baseDbDropTrace
    simp [hn]
  · intro i hi h
    exact eq_length_of_get_append (baseDbDropTrace cfs) DropEvent.closeOuter
      hnot i hi h

/-- Claim C8 (witness): the theorem applied at the one-family registry
`["a"]` and at the final index of its three-event trace. -/
theorem optimistic_drop_order_witness :
    DropEvent.releaseCf "a" ∈ baseDbDropTrace ["a"]
    ∧ (2 : Nat) = (baseDbDropTrace ["a"]).length := by
  have h := optimistic_drop_order ["a"]
  refine ⟨h.2.2.1 "a" (by simp), h.2.2.2 2 (by simp [optimisticDropTrace, baseDbDropTrace]) ?_⟩
  rfl

/-- Claim C9: the transactional database destructor's event trace releases
every column-family handle remaining in the registry and then closes the
native database handle; the close does not occur among the release events
and every index carrying the close is the final one, so no registry handle
release happens after the engine close. -/
theorem transaction_db_drop_order (cfs : List String) :
    transactionDbDropTrace cfs = registryDropTrace cfs ++ [DropEvent.closeTxnDb]
    ∧ DropEvent.closeTxnDb ∉ registryDropTrace cfs
    ∧ (∀ name ∈ cfs, DropEvent.releaseCf name ∈ registryDropTrace cfs)
    ∧ (∀ i, ∀ hi : i < (transactionDbDropTrace cfs).length,
        (transactionDbDropTrace cfs).get ⟨i, hi⟩ = DropEvent.closeTxnDb
          → i = (registryDropTrace cfs).length) := by
  have hnot : DropEvent.closeTxnDb ∉ registryDropTrace cfs := by
    unfold registryDropTrace
    simp
  refine ⟨rfl, hnot, ?_, ?_⟩
  · intro name hn
    unfold registryDropTrace
    simp [hn]
  · intro i hi h
    exact eq_length_of_get_append (registryDropTrace cfs) DropEvent.closeTxnDb
      hnot i hi h

/-- Claim C9 (witness): the theorem applied at the one-family registry
`["a"]` and at the final index of its two-event trace. -/
theorem transaction_db_drop_order_witness :
    DropEvent.releaseCf "a" ∈ registryDropTrace ["a"]
    ∧ (1 : Nat) = (registryDropTrace ["a"]).length := by
  have h := transaction_db_drop_order ["a"]
  refine ⟨h.2.2.1 "a" (by simp),
    h.2.2.2 1 (by simp [transactionDbDropTrace, registryDropTrace]) ?_⟩
  rfl

/-- One committed entry of the optimistic engine's store: a key, its
committed value and its version, bumped by every committed write to the
key. -/
structure Entry where
  key : String
  value : List Nat
  version : Nat
deriving DecidableEq

/-- Modelled from the spec (section 4.3): the committed state of the store
seen by the optimistic conflict check. -/
structure Store where
  entries : List Entry
deriving DecidableEq

/-- The committed version of a key (0 when the key was never written). -/
def Store.version (s : Store) (k : String) : Nat :=
  match s.entries.find? (fun e => e.key = k) with
  | some e => e.version
  | none => 0

/-- The committed value of a key. -/
def Store.value (s : Store) (k : String) : Option (List Nat) :=
  (s.entries.find? (fun e => e.key = k)).map (fun e => e.value)

/-- Applying one committed put: the key gets the new value and a bumped
version; other keys are untouched. -/
def Store.applyPut (s : Store) (k : String) (v : List Nat) : Store :=
  ⟨⟨k, v, s.version k + 1⟩ :: s.entries.filter (fun e => e.key ≠ k)⟩

/-- Modelled from the spec (section 4.3): an optimistic transaction carries
the committed store at its start (the engine records per-key start
versions), the keys it touched through get-for-update or buffered writes,
and its buffered writes. -/
structure OptTxn where
  start : Store
  touched : List String
  writes : List (String × List Nat)
deriving DecidableEq

/-- Beginning a transaction on the current committed store. -/
def OptTxn.begin (s : Store) : OptTxn := ⟨s, [], []⟩

/-- The value the transaction reads: its own buffered write overlaid on the
current committed state. -/
def OptTxn.readValue (t : OptTxn) (s : Store) (k : String) :
    Option (List Nat) :=
  match t.writes.find? (fun p => p.1 = k) with
  | some p => some p.2
  | none => s.value k

/-- Modelled from the spec (sections 4.3 and 4.5): `get_for_update` reads
the key and registers it in the touched set (the write-conflict watch). -/
def OptTxn.get_for_update (t : OptTxn) (s : Store) (k : String) :
    Option (List Nat) × OptTxn :=
  (t.readValue s k,
    { t with touched := if k ∈ t.touched then t.touched else t.touched ++ [k] })

/-- Modelled from the spec (section 4.5): `put` buffers the write (no effect
outside the transaction before commit) and registers the key as touched. -/
def OptTxn.put (t : OptTxn) (k : String) (v : List Nat) : OptTxn :=
  { t with
    writes := t.writes.filter (fun p => p.1 ≠ k) ++ [(k, v)]
    touched := if k ∈ t.touched then t.touched else t.touched ++ [k] }

/-- The Conflict error returned by a failed optimistic commit. -/
def conflictErr : Error := ⟨"Resource busy: transaction commit conflict"⟩

/-- Modelled from the spec (section 4.3): `commit` atomically compares the
current committed version of every touched key against its version at
transaction start; on agreement every buffered write is applied as one
atomic batch, otherwise the commit fails with Conflict and no mutation is
applied.  Commits are linearized (section 5), so a concurrent race is the
set of serial orders of the atomic commit steps. -/
def OptTxn.commit (t : OptTxn) (s : Store) : Except Error Unit × Store :=
  if t.touched.all (fun k => s.version k = t.start.version k) then
    (Except.ok (), t.writes.foldl (fun acc p => acc.applyPut p.1 p.2) s)
  else
    (Except.error conflictErr, s)

/-- One of the two racing transactions of Claim C2: begun on store `s0`, it
get-for-updates key `k` and then buffers the write `k := v`. -/
def raceTxn (s0 : Store) (k : String) (v : List Nat) : OptTxn :=
  OptTxn.put ((OptTxn.begin s0).get_for_update s0 k).2 k v

/-- The racing transaction's state is: start `s0`, touched `[k]`, one
buffered write. -/
theorem raceTxn_spec (s0 : Store) (k : String) (v : List Nat) :
    raceTxn s0 k v = ⟨s0, [k], [(k, v)]⟩ := by
  unfold raceTxn OptTxn.put OptTxn.get_for_update OptTxn.begin
  simp

/-- A put bumps the key's version. -/
theorem Store.applyPut_version (s : Store) (k : String) (v : List Nat) :
    (s.applyPut k v).version k = s.version k + 1 := by
  unfold Store.applyPut Store.version
  simp

/-- A put stores the key's new value. -/
theorem Store.applyPut_value (s : Store) (k : String) (v : List Nat) :
    (s.applyPut k v).value k = some v := by
  unfold Store.applyPut Store.value
  simp

/-- The first racer to commit succeeds and installs its value. -/
theorem commit_first (s0 : Store) (k : String) (v : List Nat) :
    OptTxn.commit ⟨s0, [k], [(k, v)]⟩ s0 = (Except.ok (), s0.applyPut k v) := by
  unfold OptTxn.commit
  simp

/-- The second racer, committing after the first bumped the key's version,
fails with Conflict and leaves the store untouched. -/
theorem commit_second (s0 : Store) (k : String) (v w : List Nat) :
    OptTxn.commit ⟨s0, [k], [(k, w)]⟩ (s0.applyPut k v)
      = (Except.error conflictErr, s0.applyPut k v) := by
  unfold OptTxn.commit
  have hv : (s0.applyPut k v).version k = s0.version k + 1 :=
    Store.applyPut_version s0 k v
  simp [hv]

/-- Claim C2: two optimistic transactions both get-for-update key `k` on
store `s0`, each buffers a write to `k`, then they commit in either serial
order of the linearized atomic commit step: the first commit succeeds, the
second returns the Conflict error with none of its buffered mutations
applied, and the final value of `k` is the one written by the transaction
that succeeded. -/
theorem optimistic_commit_exclusion (s0 : Store) (k : String)
    (v1 v2 : List Nat) :
    (((raceTxn s0 k v1).commit s0).1 = Except.ok ()
      ∧ ((raceTxn s0 k v2).commit ((raceTxn s0 k v1).commit s0).2).1
          = Except.error conflictErr
      ∧ ((raceTxn s0 k v2).commit ((raceTxn s0 k v1).commit s0).2).2
          = ((raceTxn s0 k v1).commit s0).2
      ∧ (((raceTxn s0 k v1).commit s0).2).value k = some v1)
    ∧ (((raceTxn s0 k v2).commit s0).1 = Except.ok ()
      ∧ ((raceTxn s0 k v1).commit ((raceTxn s0 k v2).commit s0).2).1
          = Except.error conflictErr
      ∧ ((raceTxn s0 k v1).commit ((raceTxn s0 k v2).commit s0).2).2
          = ((raceTxn s0 k v2).commit s0).2
      ∧ (((raceTxn s0 k v2).commit s0).2).value k = some v2) := by
  simp [raceTxn_spec, commit_first, commit_second, Store.applyPut_value]

end RocksDb
